import Mathlib

/-!
Verification development for the Veo Studio generation-orchestration core.

The definitions below are a shallow embedding of the program's core logic:
`App` (generation orchestrator, error classification, timeline state,
extend eligibility), `VideoResult` (story playback sub-state machine) and
`PromptForm` (mode constraint engine, submit gating, submission payload).

Opaque browser / remote-service values (File, Blob, object URLs, the remote
`Video` handle) are modelled as wrappers around `String` identifiers; thrown
JavaScript errors are modelled by their message strings via `Except String`.
-/

namespace VeoGen

/-- `AppState` enum from types: IDLE | LOADING | SUCCESS | ERROR. -/
inductive AppState
  | IDLE
  | LOADING
  | SUCCESS
  | ERROR
deriving DecidableEq, Repr

/-- `GenerationMode` enum. -/
inductive GenerationMode
  | TEXT_TO_VIDEO
  | FRAMES_TO_VIDEO
  | REFERENCES_TO_VIDEO
  | EXTEND_VIDEO
deriving DecidableEq, Repr

/-- `Resolution` enum: 720p | 1080p | 4K. -/
inductive Resolution
  | P720
  | P1080
  | P4K
deriving DecidableEq, Repr

/-- The aspect-ratio enum (source name `AspectRatio`): landscape 16:9 or portrait 9:16. -/
inductive AspectKind
  | LANDSCAPE
  | PORTRAIT
deriving DecidableEq, Repr

/-- `VeoModel` enum: VEO is the high-quality model, VEO_FAST the fast one. -/
inductive VeoModel
  | VEO
  | VEO_FAST
deriving DecidableEq, Repr

/-- `Speaker` enum: NONE plus three named speakers. -/
inductive Speaker
  | NONE
  | ELENA
  | ARUN
  | NARRATOR
deriving DecidableEq, Repr

/-- `ImageFile`: a raw file handle plus its base64 encoding. -/
structure ImageFile where
  file : String
  base64 : String
deriving DecidableEq, Repr

/-- `VideoFile`: a raw video file handle plus its base64 encoding. -/
structure VideoFile where
  file : String
  base64 : String
deriving DecidableEq, Repr

/-- The opaque remote video handle (`Video` from the genai SDK). -/
structure Video where
  handle : String
deriving DecidableEq, Repr

/-- An in-memory binary blob (browser `Blob`). -/
structure Blob where
  bytes : String
deriving DecidableEq, Repr

/-- `GenerateVideoParams`: the request configuration submitted per attempt.
The source field `aspectRatio` is embedded as `aspect`. `dialogue` may be
`undefined` in the source (when the dialogue panel is hidden), hence `Option`. -/
structure GenerateVideoParams where
  prompt : String
  model : VeoModel
  aspect : AspectKind
  resolution : Resolution
  mode : GenerationMode
  startFrame : Option ImageFile
  endFrame : Option ImageFile
  referenceImages : List ImageFile
  styleImage : Option ImageFile
  inputVideo : Option VideoFile
  inputVideoObject : Option Video
  isLooping : Bool
  dialogue : Option String
  speaker : Speaker
deriving DecidableEq, Repr

/-- `StorySegment`: one completed scene appended to the timeline. -/
structure StorySegment where
  id : String
  videoUrl : String
  audioUrl : Option String
  prompt : String
  dialogue : Option String
  speaker : Speaker
deriving DecidableEq, Repr

/-- `p` is a prefix of `s`, on character lists (JS `String.prototype.includes` helper). -/
def charsHavePref : List Char → List Char → Bool
  | [], _ => true
  | _ :: _, [] => false
  | a :: as, b :: bs => a == b && charsHavePref as bs

/-- `pat` occurs as a contiguous run inside `s`, on character lists. -/
def charsHaveSub (pat : List Char) : List Char → Bool
  | [] => pat.isEmpty
  | b :: bs => charsHavePref pat (b :: bs) || charsHaveSub pat bs

/-- JS `s.includes(pat)`: `pat` occurs as a contiguous substring of `s`. -/
def hasSub (s pat : String) : Bool := charsHaveSub pat.data s.data

/-- JS `s.toLowerCase()`, restricted to the ASCII range that the matched
pattern (`permission denied`) lives in. -/
def toLowerStr (s : String) : String := String.mk (s.data.map Char.toLower)

/-- JS `s.trim()`: leading and trailing whitespace removed. -/
def trimStr (s : String) : String :=
  String.mk (((s.data.dropWhile Char.isWhitespace).reverse.dropWhile
    Char.isWhitespace).reverse)

/-- Spec vocabulary for the three error-classification branches of
`handleGenerate`'s catch block. -/
inductive ErrorCategory
  | ModelNotFound
  | CredentialInvalid
  | Generic
deriving DecidableEq, Repr

/-- Result of classifying a raw error message: which branch fired, the
user-facing message assigned, and whether the API-key dialog is opened. -/
structure ClassifiedError where
  category : ErrorCategory
  userMessage : String
  shouldOpenDialog : Bool
deriving DecidableEq, Repr

/-- The user message assigned in the `Requested entity was not found.` branch. -/
def modelNotFoundMessage : String :=
  "Model not found. This can be caused by an invalid API key or permission issues. Please check your API key."

/-- The user message assigned in the invalid-key / permission branch. -/
def credentialInvalidMessage : String :=
  "Your API key is invalid or lacks permissions. Please select a valid, billing-enabled API key."

/-- The error classification performed in `handleGenerate`'s catch block
(App.tsx): the default message is `Generation failed: <raw>` with the dialog
flag off; the first matching pattern branch overrides both. -/
def classifyError (errorMessage : String) : ClassifiedError :=
  if hasSub errorMessage "Requested entity was not found." then
    ⟨.ModelNotFound, modelNotFoundMessage, true⟩
  else if hasSub errorMessage "API_KEY_INVALID" || hasSub errorMessage "API key not valid"
      || hasSub (toLowerStr errorMessage) "permission denied" || hasSub errorMessage "403" then
    ⟨.CredentialInvalid, credentialInvalidMessage, true⟩
  else
    ⟨.Generic, "Generation failed: " ++ errorMessage, false⟩

/-- The App component's orchestrator-visible state: the `useState` cells of
`App` in App.tsx. -/
structure AppModel where
  appState : AppState
  errorMessage : Option String
  timeline : List StorySegment
  currentSegmentId : Option String
  lastConfig : Option GenerateVideoParams
  lastVideoObject : Option Video
  lastVideoBlob : Option Blob
  showApiKeyDialog : Bool
  initialFormValues : Option GenerateVideoParams
deriving DecidableEq, Repr

/-- The four observable outcomes of the `window.aistudio.hasSelectedApiKey()`
guard: the provider object is absent, the check resolves true, resolves
false, or throws. -/
inductive KeyCheckOutcome
  | noProvider
  | hasKey
  | noKey
  | checkFailed
deriving DecidableEq, Repr

/-- Whether the guard lets a generation attempt proceed: when the provider is
absent no check is made and the attempt proceeds; when the check resolves
true it proceeds; on false or on a thrown check it does not. -/
def keyCheckPasses : KeyCheckOutcome → Bool
  | .noProvider => true
  | .hasKey => true
  | .noKey => false
  | .checkFailed => false

/-- The startup `useEffect` in App.tsx (`checkApiKey`): on mount, if the
provider exists and the check resolves false or throws, the API-key dialog
is shown; otherwise nothing changes. -/
def checkApiKeyAtStart (st : AppModel) (kc : KeyCheckOutcome) : AppModel :=
  match kc with
  | .noProvider => st
  | .hasKey => st
  | .noKey => { st with showApiKeyDialog := true }
  | .checkFailed => { st with showApiKeyDialog := true }

/-- Result of a successful `generateVideo` call. -/
structure VideoGenResult where
  objectUrl : String
  blob : Blob
  video : Video
deriving DecidableEq, Repr

/-- Result of a successful `generateSpeech` call. -/
structure SpeechGenResult where
  audioUrl : String
deriving DecidableEq, Repr

/-- The condition under which `handleGenerate` launches the speech call:
`params.dialogue && params.speaker && params.speaker !== Speaker.NONE`
(JS truthiness: an absent or empty dialogue string is falsy). -/
def speechRequested (p : GenerateVideoParams) : Bool :=
  (match p.dialogue with
   | some d => !(d == "")
   | none => false) && !(p.speaker == Speaker.NONE)

/-- The error branch of `handleGenerate`'s try/catch: classify the raw
message, record the user-facing message, go to ERROR, and open the API-key
dialog additionally when the classification demands it. -/
def applyFailure (st : AppModel) (rawMsg : String) : AppModel :=
  let c := classifyError rawMsg
  { st with
    errorMessage := some c.userMessage
    appState := .ERROR
    showApiKeyDialog := st.showApiKeyDialog || c.shouldOpenDialog }

/-- One run of `handleGenerate` (App.tsx). `kc` is the observed outcome of
the credential guard, `newId` the `Date.now()` string used as the segment id,
`videoRes`/`speechRes` the outcomes of the two remote calls (a thrown error
is modelled by its message). The speech outcome is consulted only when
`speechRequested params`; otherwise the speech promise resolves to null.
When both calls fail, `Promise.all` rejects with whichever settled first;
the model resolves this race in favour of the video error (no claim depends
on which message wins). -/
def handleGenerate (st : AppModel) (params : GenerateVideoParams)
    (kc : KeyCheckOutcome) (newId : String)
    (videoRes : Except String VideoGenResult)
    (speechRes : Except String SpeechGenResult) : AppModel :=
  if keyCheckPasses kc then
    let st1 : AppModel :=
      { st with
        appState := .LOADING
        errorMessage := none
        lastConfig := some params
        initialFormValues := none }
    let speechJoin : Except String (Option SpeechGenResult) :=
      if speechRequested params then
        match speechRes with
        | .ok s => .ok (some s)
        | .error e => .error e
      else .ok none
    match videoRes, speechJoin with
    | .error e, _ => applyFailure st1 e
    | .ok _, .error e => applyFailure st1 e
    | .ok v, .ok s =>
      let newSegment : StorySegment :=
        { id := newId
          videoUrl := v.objectUrl
          audioUrl := s.map (fun r => r.audioUrl)
          prompt := params.prompt
          dialogue := params.dialogue
          speaker := params.speaker }
      { st1 with
        timeline := st1.timeline ++ [newSegment]
        currentSegmentId := some newSegment.id
        lastVideoBlob := some v.blob
        lastVideoObject := some v.video
        appState := .SUCCESS }
  else
    { st with showApiKeyDialog := true }

/-- `canExtend` (App.tsx): `lastConfig?.resolution === Resolution.P720`;
when `lastConfig` is null the optional chain yields undefined, which is not
strictly equal to P720. -/
def canExtend (lastConfig : Option GenerateVideoParams) : Bool :=
  match lastConfig with
  | some c => c.resolution == Resolution.P720
  | none => false

/-- The PromptForm component's state: its `useState` cells (PromptForm.tsx).
Pure presentation toggles (settings panel, mode dropdown) are omitted; they
influence no submitted value. The source field `aspectRatio` is embedded as
`aspect`. -/
structure FormState where
  prompt : String
  model : VeoModel
  aspect : AspectKind
  resolution : Resolution
  generationMode : GenerationMode
  startFrame : Option ImageFile
  endFrame : Option ImageFile
  referenceImages : List ImageFile
  styleImage : Option ImageFile
  inputVideo : Option VideoFile
  inputVideoObject : Option Video
  isLooping : Bool
  dialogue : String
  speaker : Speaker
  showDialogueInput : Bool
deriving DecidableEq, Repr

/-- The `useState` initializers of PromptForm: each field defaults from
`initialValues` when provided (`initialValues?.x ?? default`), and
`showDialogueInput` starts false. -/
def initFormState (iv : Option GenerateVideoParams) : FormState :=
  { prompt := (iv.map (fun v => v.prompt)).getD ""
    model := (iv.map (fun v => v.model)).getD .VEO_FAST
    aspect := (iv.map (fun v => v.aspect)).getD .LANDSCAPE
    resolution := (iv.map (fun v => v.resolution)).getD .P720
    generationMode := (iv.map (fun v => v.mode)).getD .TEXT_TO_VIDEO
    startFrame := (iv.map (fun v => v.startFrame)).getD none
    endFrame := (iv.map (fun v => v.endFrame)).getD none
    referenceImages := (iv.map (fun v => v.referenceImages)).getD []
    styleImage := (iv.map (fun v => v.styleImage)).getD none
    inputVideo := (iv.map (fun v => v.inputVideo)).getD none
    inputVideoObject := (iv.map (fun v => v.inputVideoObject)).getD none
    isLooping := (iv.map (fun v => v.isLooping)).getD false
    dialogue := (iv.bind (fun v => v.dialogue)).getD ""
    speaker := (iv.map (fun v => v.speaker)).getD .NONE
    showDialogueInput := false }

/-- The `[generationMode]` effect of PromptForm (its two forced-override
rules): EXTEND_VIDEO forces 720p; REFERENCES_TO_VIDEO forces the
high-quality model, landscape aspect and 720p. -/
def modeConstraintEffect (st : FormState) : FormState :=
  let st1 :=
    if st.generationMode = GenerationMode.EXTEND_VIDEO then
      { st with resolution := .P720 }
    else st
  if st1.generationMode = GenerationMode.REFERENCES_TO_VIDEO then
    { st1 with model := .VEO, aspect := .LANDSCAPE, resolution := .P720 }
  else st1

/-- JS truthiness condition of the `[initialValues]` effect for opening the
dialogue panel: `initialValues.dialogue || initialValues.speaker !== NONE`. -/
def dialogueTruthy (iv : GenerateVideoParams) : Bool :=
  (match iv.dialogue with
   | some d => !(d == "")
   | none => false) || !(iv.speaker == Speaker.NONE)

/-- The field assignments of the `[initialValues]` effect: every form cell is
overwritten from `initialValues` (with the same `??` defaults as the
initializers), and the dialogue panel is opened when dialogue text or a
speaker is present (it is never closed by this effect). -/
def setFieldsFromInitialValues (iv : GenerateVideoParams) (st : FormState) : FormState :=
  { prompt := iv.prompt
    model := iv.model
    aspect := iv.aspect
    resolution := iv.resolution
    generationMode := iv.mode
    startFrame := iv.startFrame
    endFrame := iv.endFrame
    referenceImages := iv.referenceImages
    styleImage := iv.styleImage
    inputVideo := iv.inputVideo
    inputVideoObject := iv.inputVideoObject
    isLooping := iv.isLooping
    dialogue := iv.dialogue.getD ""
    speaker := iv.speaker
    showDialogueInput := if dialogueTruthy iv then true else st.showDialogueInput }

/-- A delivery of new `initialValues` to an already-mounted form: the
`[initialValues]` effect runs, and the `[generationMode]` effect re-runs
afterwards exactly when the mode cell changed. -/
def applyInitialValues (iv : GenerateVideoParams) (st : FormState) : FormState :=
  let st2 := setFieldsFromInitialValues iv st
  if iv.mode = st.generationMode then st2 else modeConstraintEffect st2

/-- Mounting PromptForm: the initializers run, then on the first render both
effects run — the `[initialValues]` one (when values were given) and the
`[generationMode]` one unconditionally. -/
def mountForm : Option GenerateVideoParams → FormState
  | none => modeConstraintEffect (initFormState none)
  | some iv => modeConstraintEffect (setFieldsFromInitialValues iv (initFormState (some iv)))

/-- `handleSelectMode` (PromptForm.tsx): set the mode, clear every
mode-specific asset, then the `[generationMode]` effect re-runs when the
mode actually changed. -/
def handleSelectMode (mode : GenerationMode) (st : FormState) : FormState :=
  let cleared : FormState :=
    { st with
      generationMode := mode
      startFrame := none
      endFrame := none
      referenceImages := []
      styleImage := none
      inputVideo := none
      inputVideoObject := none
      isLooping := false }
  if mode = st.generationMode then cleared else modeConstraintEffect cleared

/-- The user-driven state updates of PromptForm. The three select controls
are rendered `disabled` in the locking modes, so their change events carry
that guard; removing the start frame also clears the looping flag, and
removing the input video also clears its opaque handle, as in the
corresponding `onRemove` handlers. -/
inductive FormEvent
  | selectMode (m : GenerationMode)
  | setModelEv (v : VeoModel)
  | setAspectEv (v : AspectKind)
  | setResolutionEv (v : Resolution)
  | setPromptEv (s : String)
  | setDialogueEv (s : String)
  | setSpeakerEv (v : Speaker)
  | toggleDialogueEv
  | setStartFrameEv (i : ImageFile)
  | removeStartFrameEv
  | setEndFrameEv (i : ImageFile)
  | removeEndFrameEv
  | addReferenceImageEv (i : ImageFile)
  | removeReferenceImageEv (idx : Nat)
  | setStyleImageEv (i : Option ImageFile)
  | setInputVideoEv (v : VideoFile)
  | removeInputVideoEv
  | setLoopingEv (b : Bool)
  | applyInitEv (iv : GenerateVideoParams)
deriving Repr

/-- One PromptForm state transition per event. -/
def formStep (st : FormState) : FormEvent → FormState
  | .selectMode m => handleSelectMode m st
  | .setModelEv v =>
    if st.generationMode = GenerationMode.REFERENCES_TO_VIDEO then st
    else { st with model := v }
  | .setAspectEv v =>
    if st.generationMode = GenerationMode.REFERENCES_TO_VIDEO then st
    else { st with aspect := v }
  | .setResolutionEv v =>
    if st.generationMode = GenerationMode.EXTEND_VIDEO
        ∨ st.generationMode = GenerationMode.REFERENCES_TO_VIDEO then st
    else { st with resolution := v }
  | .setPromptEv s => { st with prompt := s }
  | .setDialogueEv s => { st with dialogue := s }
  | .setSpeakerEv v => { st with speaker := v }
  | .toggleDialogueEv => { st with showDialogueInput := !st.showDialogueInput }
  | .setStartFrameEv i => { st with startFrame := some i }
  | .removeStartFrameEv => { st with startFrame := none, isLooping := false }
  | .setEndFrameEv i => { st with endFrame := some i }
  | .removeEndFrameEv => { st with endFrame := none }
  | .addReferenceImageEv i => { st with referenceImages := st.referenceImages ++ [i] }
  | .removeReferenceImageEv idx => { st with referenceImages := st.referenceImages.eraseIdx idx }
  | .setStyleImageEv i => { st with styleImage := i }
  | .setInputVideoEv v => { st with inputVideo := some v }
  | .removeInputVideoEv => { st with inputVideo := none, inputVideoObject := none }
  | .setLoopingEv b => { st with isLooping := b }
  | .applyInitEv iv => applyInitialValues iv st

/-- The submit gate of PromptForm: `isSubmitDisabled` and `tooltipText`
computed per mode before rendering the Generate button. -/
structure SubmitGate where
  isSubmitDisabled : Bool
  tooltipText : String
deriving DecidableEq, Repr

/-- The per-mode `switch` computing `isSubmitDisabled` / `tooltipText`
(PromptForm.tsx): TEXT_TO_VIDEO needs a non-empty trimmed prompt;
FRAMES_TO_VIDEO a start frame; REFERENCES_TO_VIDEO both a non-empty trimmed
prompt and at least one reference image, reporting both when both are
missing; EXTEND_VIDEO the opaque input-video handle. -/
def submitGate (st : FormState) : SubmitGate :=
  match st.generationMode with
  | .TEXT_TO_VIDEO =>
    if trimStr st.prompt = "" then
      ⟨true, "Please enter a visual description."⟩
    else ⟨false, ""⟩
  | .FRAMES_TO_VIDEO =>
    if st.startFrame.isNone then
      ⟨true, "A start frame is required."⟩
    else ⟨false, ""⟩
  | .REFERENCES_TO_VIDEO =>
    if trimStr st.prompt = "" ∧ st.referenceImages.isEmpty then
      ⟨true, "Please enter a prompt and add at least one asset."⟩
    else if trimStr st.prompt = "" then
      ⟨true, "Please enter a prompt."⟩
    else if st.referenceImages.isEmpty then
      ⟨true, "At least one reference asset is required."⟩
    else ⟨false, ""⟩
  | .EXTEND_VIDEO =>
    if st.inputVideoObject.isNone then
      ⟨true, "An input video from a previous generation is required to extend."⟩
    else ⟨false, ""⟩

/-- `handleSubmit` (PromptForm.tsx): the `GenerateVideoParams` passed to
`onGenerate` — every form cell verbatim, except that when the dialogue panel
is hidden the dialogue is `undefined` and the speaker is forced to NONE. -/
def handleSubmit (st : FormState) : GenerateVideoParams :=
  { prompt := st.prompt
    model := st.model
    aspect := st.aspect
    resolution := st.resolution
    mode := st.generationMode
    startFrame := st.startFrame
    endFrame := st.endFrame
    referenceImages := st.referenceImages
    styleImage := st.styleImage
    inputVideo := st.inputVideo
    inputVideoObject := st.inputVideoObject
    isLooping := st.isLooping
    dialogue := if st.showDialogueInput then some st.dialogue else none
    speaker := if st.showDialogueInput then st.speaker else .NONE }

/-- The story-playback state of VideoResult: `isPlayingStory`, `storyIndex`
and `viewingSegment` (VideoResult in part_000). -/
structure PlaybackState where
  isPlayingStory : Bool
  storyIndex : Nat
  viewingSegment : StorySegment
deriving DecidableEq, Repr

/-- The `[isPlayingStory, storyIndex, timeline]` effect: while playing and
the index is in range (a Nat index is always ≥ 0), the viewed segment
becomes `timeline[storyIndex]`. -/
def syncViewing (timeline : List StorySegment) (st : PlaybackState) : PlaybackState :=
  if h : st.isPlayingStory ∧ st.storyIndex < timeline.length then
    { st with viewingSegment := timeline.get ⟨st.storyIndex, h.2⟩ }
  else st

/-- `handleVideoEnded` (VideoResult): while playing, advance the index when
below the last index (the viewing effect then shows the new index);
otherwise leave playback, reset the index to 0 and show `currentSegment`,
the most recently generated segment. Nat subtraction mirrors the JS
comparison: for an empty timeline `storyIndex < -1` is false and so is
`storyIndex < 0 - 1` in ℕ. -/
def handleVideoEnded (timeline : List StorySegment) (currentSegment : StorySegment)
    (st : PlaybackState) : PlaybackState :=
  if st.isPlayingStory then
    if st.storyIndex < timeline.length - 1 then
      syncViewing timeline { st with storyIndex := st.storyIndex + 1 }
    else
      { isPlayingStory := false, storyIndex := 0, viewingSegment := currentSegment }
  else st

/-- `togglePlayStory` (VideoResult): stopping reverts the view to
`currentSegment`; starting resets the index to 0 and enters story mode (the
viewing effect then shows index 0). -/
def togglePlayStory (timeline : List StorySegment) (currentSegment : StorySegment)
    (st : PlaybackState) : PlaybackState :=
  if st.isPlayingStory then
    { st with isPlayingStory := false, viewingSegment := currentSegment }
  else
    syncViewing timeline { st with storyIndex := 0, isPlayingStory := true }

/-- The render condition of the Play Full Story button:
`timeline.length > 1`. -/
def storyButtonShown (timeline : List StorySegment) : Bool :=
  timeline.length > 1

/-- The seek-target rule of `extractFrameFromVideo` (PromptForm.tsx):
`duration > 0.5 ? duration - 0.1 : 0`. Durations and the decimal literals
are modelled as exact rationals. -/
def seekTarget (duration : ℚ) : ℚ :=
  if duration > 1/2 then duration - 1/10 else 0

/-- The forced-override invariant on form state: in REFERENCES_TO_VIDEO the
model/aspect/resolution triple is locked, in EXTEND_VIDEO the resolution is
locked to 720p. -/
def modeLockInvariant (st : FormState) : Prop :=
  (st.generationMode = GenerationMode.REFERENCES_TO_VIDEO →
    st.model = VeoModel.VEO ∧ st.aspect = AspectKind.LANDSCAPE
      ∧ st.resolution = Resolution.P720) ∧
  (st.generationMode = GenerationMode.EXTEND_VIDEO →
    st.resolution = Resolution.P720)

/-- The same invariant on a request configuration. -/
def configLockInvariant (p : GenerateVideoParams) : Prop :=
  (p.mode = GenerationMode.REFERENCES_TO_VIDEO →
    p.model = VeoModel.VEO ∧ p.aspect = AspectKind.LANDSCAPE
      ∧ p.resolution = Resolution.P720) ∧
  (p.mode = GenerationMode.EXTEND_VIDEO →
    p.resolution = Resolution.P720)

/-- Side condition on an event: `initialValues` deliveries are drafts built
from previously submitted configurations and must themselves satisfy the
lock invariant; user events carry no condition. -/
def eventLockOK : FormEvent → Prop
  | .applyInitEv iv => configLockInvariant iv
  | _ => True

instance : DecidablePred modeLockInvariant := fun st => by
  unfold modeLockInvariant; infer_instance

instance : DecidablePred configLockInvariant := fun p => by
  unfold configLockInvariant; infer_instance

instance : DecidablePred eventLockOK := fun e => by
  cases e <;> (unfold eventLockOK; infer_instance)

/-- A sample image payload. -/
def sampleImage : ImageFile := ⟨"frame.jpg", "aW1n"⟩

/-- A sample raw video payload. -/
def sampleVideoFile : VideoFile := ⟨"clip.mp4", "dmlk"⟩

/-- A sample opaque remote video handle. -/
def sampleVideoHandle : Video := ⟨"remote-video-1"⟩

/-- A sample request configuration (plain text-to-video attempt with
dialogue for the ELENA speaker). -/
def sampleParams : GenerateVideoParams :=
  { prompt := "a cat on a roof"
    model := .VEO_FAST
    aspect := .LANDSCAPE
    resolution := .P720
    mode := .TEXT_TO_VIDEO
    startFrame := none
    endFrame := none
    referenceImages := []
    styleImage := none
    inputVideo := none
    inputVideoObject := none
    isLooping := false
    dialogue := some "hello"
    speaker := .ELENA }

/-- A sample configuration whose last generation was 1080p. -/
def sampleParams1080 : GenerateVideoParams :=
  { sampleParams with resolution := .P1080 }

/-- The application state at process start. -/
def freshAppModel : AppModel :=
  { appState := .IDLE
    errorMessage := none
    timeline := []
    currentSegmentId := none
    lastConfig := none
    lastVideoObject := none
    lastVideoBlob := none
    showApiKeyDialog := false
    initialFormValues := none }

/-- A sample form state whose dialogue panel is hidden although dialogue
text and a speaker were entered while it was open. -/
def sampleFormState : FormState :=
  { prompt := "a quiet forest"
    model := .VEO_FAST
    aspect := .LANDSCAPE
    resolution := .P720
    generationMode := .TEXT_TO_VIDEO
    startFrame := none
    endFrame := none
    referenceImages := []
    styleImage := none
    inputVideo := none
    inputVideoObject := none
    isLooping := false
    dialogue := "we made it"
    speaker := .ELENA
    showDialogueInput := false }

/-- Three sample story segments. -/
def segA : StorySegment := ⟨"1", "blob:a", none, "scene one", none, .NONE⟩

/-- Second sample segment. -/
def segB : StorySegment := ⟨"2", "blob:b", some "audio:b", "scene two", some "hi", .ELENA⟩

/-- Third sample segment; it is the most recently generated one. -/
def segC : StorySegment := ⟨"3", "blob:c", none, "scene three", none, .NONE⟩

/-- A sample 3-segment timeline. -/
def timeline3 : List StorySegment := [segA, segB, segC]

/-- The `[generationMode]` effect establishes the forced-override invariant
on any state it is applied to. -/
theorem modeConstraintEffect_lock (st : FormState) :
    modeLockInvariant (modeConstraintEffect st) := by
  unfold modeConstraintEffect modeLockInvariant
  by_cases h1 : st.generationMode = GenerationMode.EXTEND_VIDEO <;>
    by_cases h2 : st.generationMode = GenerationMode.REFERENCES_TO_VIDEO <;>
    simp_all

/-- Claim C2: error classification is by substring patterns on the raw error
text, in order with first match winning: a message containing
`Requested entity was not found.` is ModelNotFound with the dialog flag set;
otherwise one containing `API_KEY_INVALID`, `API key not valid`,
case-insensitive `permission denied` or `403` is CredentialInvalid with the
flag set; every other message is Generic with user message
`Generation failed: <raw>` and the flag clear. -/
theorem c2_error_classification (msg : String) :
    (hasSub msg "Requested entity was not found." = true →
      classifyError msg = ⟨.ModelNotFound, modelNotFoundMessage, true⟩) ∧
    (hasSub msg "Requested entity was not found." = false →
      (hasSub msg "API_KEY_INVALID" || hasSub msg "API key not valid"
        || hasSub (toLowerStr msg) "permission denied" || hasSub msg "403") = true →
      classifyError msg = ⟨.CredentialInvalid, credentialInvalidMessage, true⟩) ∧
    (hasSub msg "Requested entity was not found." = false →
      (hasSub msg "API_KEY_INVALID" || hasSub msg "API key not valid"
        || hasSub (toLowerStr msg) "permission denied" || hasSub msg "403") = false →
      classifyError msg = ⟨.Generic, "Generation failed: " ++ msg, false⟩) := by
  refine ⟨fun h1 => ?_, fun h1 h2 => ?_, fun h1 h2 => ?_⟩
  · simp [classifyError, h1]
  · simp [classifyError, h1, h2]
  · simp [classifyError, h1, h2]

/-- Witness for C2: the plain message `boom` matches no pattern and is
classified Generic with the raw message embedded and the flag clear. -/
theorem c2_witness :
    classifyError "boom" = ⟨.Generic, "Generation failed: " ++ "boom", false⟩ :=
  (c2_error_classification "boom").2.2 (by decide) (by decide)

/-- Claim C8: the derived extend-eligibility boolean is true exactly when the
last used configuration's resolution is 720p; with no last configuration, or
a 1080p or 4K one, it is false. -/
theorem c8_extend_eligibility :
    (∀ cfg : GenerateVideoParams,
      (canExtend (some cfg) = true ↔ cfg.resolution = Resolution.P720) ∧
      (cfg.resolution = Resolution.P1080 ∨ cfg.resolution = Resolution.P4K →
        canExtend (some cfg) = false)) ∧
    canExtend none = false := by
  refine ⟨fun cfg => ⟨?_, ?_⟩, rfl⟩
  · simp [canExtend]
  · rintro (h | h) <;> simp [canExtend, h]

/-- Witness for C8: a configuration whose last resolution was 1080p is not
extend-eligible. -/
theorem c8_witness : canExtend (some sampleParams1080) = false :=
  (c8_extend_eligibility.1 sampleParams1080).2 (Or.inl rfl)

/-- Claim C9: the last-frame-extraction seek target for a video of duration
D is D − 0.1 when D > 0.5 and 0 otherwise; in particular D = 10 yields 9.9
and D = 0.3 yields 0. -/
theorem c9_seek_rule :
    (∀ D : ℚ, (1/2 < D → seekTarget D = D - 1/10) ∧ (D ≤ 1/2 → seekTarget D = 0)) ∧
    seekTarget 10 = 99/10 ∧ seekTarget (3/10) = 0 := by
  refine ⟨fun D => ⟨fun h => ?_, fun h => ?_⟩, by norm_num [seekTarget], by norm_num [seekTarget]⟩
  · unfold seekTarget; rw [if_pos h]
  · unfold seekTarget; rw [if_neg (not_lt.mpr h)]

/-- Witness for C9: at duration 10 the seek target is 10 − 0.1. -/
theorem c9_witness : seekTarget 10 = 10 - 1/10 :=
  (c9_seek_rule.1 10).1 (by norm_num)

/-- Claim C10: when the dialogue panel is hidden at submission time, the
submitted configuration has no dialogue and speaker NONE regardless of the
panel's stored dialogue text and speaker, so the orchestrator requests no
speech generation for that attempt. -/
theorem c10_hidden_dialogue_panel (st : FormState)
    (h : st.showDialogueInput = false) :
    (handleSubmit st).dialogue = none ∧ (handleSubmit st).speaker = Speaker.NONE ∧
    speechRequested (handleSubmit st) = false := by
  refine ⟨?_, ?_, ?_⟩ <;> simp [handleSubmit, speechRequested, h]

/-- Witness for C10: a hidden panel with stored dialogue `we made it` and
speaker ELENA still submits no dialogue, speaker NONE, and no speech
request. -/
theorem c10_witness :
    (handleSubmit sampleFormState).dialogue = none ∧
    (handleSubmit sampleFormState).speaker = Speaker.NONE ∧
    speechRequested (handleSubmit sampleFormState) = false :=
  c10_hidden_dialogue_panel sampleFormState rfl

/-- Claim C5: every mode switch clears all mode-specific asset fields —
start frame, end frame, reference images, style image, input video (raw file
and opaque handle) — and resets the looping flag, for every prior state and
target mode. -/
theorem c5_mode_switch_clears (st : FormState) (m : GenerationMode) :
    (formStep st (.selectMode m)).startFrame = none ∧
    (formStep st (.selectMode m)).endFrame = none ∧
    (formStep st (.selectMode m)).referenceImages = [] ∧
    (formStep st (.selectMode m)).styleImage = none ∧
    (formStep st (.selectMode m)).inputVideo = none ∧
    (formStep st (.selectMode m)).inputVideoObject = none ∧
    (formStep st (.selectMode m)).isLooping = false := by
  simp only [formStep, handleSelectMode, modeConstraintEffect]
  split_ifs <;> simp

/-- Claim C3: per mode, submission is enabled exactly when the required
fields are present — a non-empty trimmed prompt for TEXT_TO_VIDEO, a start
frame for FRAMES_TO_VIDEO, both a non-empty trimmed prompt and a reference
image for REFERENCES_TO_VIDEO (naming both when both are missing), the
opaque input-video handle for EXTEND_VIDEO — and whenever submission is
blocked a non-empty reason is reported. -/
theorem c3_submit_gating (st : FormState) :
    (st.generationMode = GenerationMode.TEXT_TO_VIDEO →
      ((submitGate st).isSubmitDisabled = false ↔ trimStr st.prompt ≠ "")) ∧
    (st.generationMode = GenerationMode.FRAMES_TO_VIDEO →
      ((submitGate st).isSubmitDisabled = false ↔ st.startFrame.isSome = true)) ∧
    (st.generationMode = GenerationMode.REFERENCES_TO_VIDEO →
      (((submitGate st).isSubmitDisabled = false ↔
        (trimStr st.prompt ≠ "" ∧ st.referenceImages ≠ [])) ∧
       (trimStr st.prompt = "" → st.referenceImages = [] →
        (submitGate st).tooltipText = "Please enter a prompt and add at least one asset."))) ∧
    (st.generationMode = GenerationMode.EXTEND_VIDEO →
      ((submitGate st).isSubmitDisabled = false ↔ st.inputVideoObject.isSome = true)) ∧
    ((submitGate st).isSubmitDisabled = true → (submitGate st).tooltipText ≠ "") := by
  refine ⟨fun h => ?_, fun h => ?_, fun h => ?_, fun h => ?_, fun h => ?_⟩
  · simp only [submitGate, h]
    split_ifs with hp <;> simp [hp]
  · simp only [submitGate, h]
    split_ifs with hp <;>
      simp_all [Option.isNone_iff_eq_none, Option.isSome_iff_ne_none]
  · simp only [submitGate, h]
    split_ifs with h1 h2 h3 <;> constructor <;> simp_all
  · simp only [submitGate, h]
    split_ifs with hp <;>
      simp_all [Option.isNone_iff_eq_none, Option.isSome_iff_ne_none]
  · cases hm : st.generationMode <;> simp only [submitGate, hm] at h ⊢ <;>
      split_ifs at h ⊢ <;> simp_all

/-- Witness for C3: in REFERENCES_TO_VIDEO with an empty prompt and no
reference images, submission is blocked and the reason names both missing
inputs; in TEXT_TO_VIDEO a non-blank prompt enables submission. -/
theorem c3_witness :
    (submitGate { sampleFormState with
        generationMode := .REFERENCES_TO_VIDEO, prompt := "" }).tooltipText
      = "Please enter a prompt and add at least one asset." ∧
    (submitGate sampleFormState).isSubmitDisabled = false :=
  ⟨((c3_submit_gating { sampleFormState with
        generationMode := .REFERENCES_TO_VIDEO, prompt := "" }).2.2.1 rfl).2
      (by decide) rfl,
   ((c3_submit_gating sampleFormState).1 rfl).mpr (by decide)⟩

/-- Claim C6: the credential check runs at process start and immediately
before every generation attempt; whenever it resolves false or itself
fails, no generation call is started (the outcome cells of the two remote
calls are never consulted), credential selection is signalled, and the
application state — ApplicationState, last config, error message, timeline
and all the rest — is otherwise unchanged. -/
theorem c6_credential_guard :
    (∀ (st : AppModel) (kc : KeyCheckOutcome),
      (kc = KeyCheckOutcome.noKey ∨ kc = KeyCheckOutcome.checkFailed) →
      checkApiKeyAtStart st kc = { st with showApiKeyDialog := true }) ∧
    (∀ (st : AppModel) (params : GenerateVideoParams) (kc : KeyCheckOutcome)
       (newId : String) (videoRes : Except String VideoGenResult)
       (speechRes : Except String SpeechGenResult),
      (kc = KeyCheckOutcome.noKey ∨ kc = KeyCheckOutcome.checkFailed) →
      handleGenerate st params kc newId videoRes speechRes
        = { st with showApiKeyDialog := true }) := by
  constructor
  · rintro st kc (rfl | rfl) <;> rfl
  · rintro st params kc newId videoRes speechRes (rfl | rfl) <;>
      simp [handleGenerate, keyCheckPasses]

/-- Witness for C6: on a failing credential check, a fresh application state
with a pending attempt only gains the selection signal, whatever the remote
calls would have produced. -/
theorem c6_witness :
    checkApiKeyAtStart freshAppModel .noKey
        = { freshAppModel with showApiKeyDialog := true } ∧
    handleGenerate freshAppModel sampleParams .checkFailed "17"
        (.ok ⟨"blob:v", ⟨"bytes"⟩, sampleVideoHandle⟩) (.error "speech down")
      = { freshAppModel with showApiKeyDialog := true } :=
  ⟨c6_credential_guard.1 freshAppModel .noKey (Or.inl rfl),
   c6_credential_guard.2 freshAppModel sampleParams .checkFailed "17"
     (.ok ⟨"blob:v", ⟨"bytes"⟩, sampleVideoHandle⟩) (.error "speech down")
     (Or.inr rfl)⟩

/-- Claim C1: in an attempt where both the video and the speech operation
are launched (credential guard passed, dialogue present with a speaker),
if either operation fails the whole attempt fails: the timeline — its
length and every existing segment — and the current-segment pointer are
unchanged, the application state becomes ERROR, and the successful
operation's result is discarded (the retained video blob and handle are
unchanged, and no segment carries the new audio or video). -/
theorem c1_all_or_nothing (st : AppModel) (params : GenerateVideoParams)
    (kc : KeyCheckOutcome) (newId : String)
    (videoRes : Except String VideoGenResult)
    (speechRes : Except String SpeechGenResult)
    (hkc : keyCheckPasses kc = true)
    (hsp : speechRequested params = true)
    (hfail : (∃ e, videoRes = .error e) ∨ (∃ e, speechRes = .error e)) :
    (handleGenerate st params kc newId videoRes speechRes).timeline = st.timeline ∧
    (handleGenerate st params kc newId videoRes speechRes).currentSegmentId
      = st.currentSegmentId ∧
    (handleGenerate st params kc newId videoRes speechRes).appState = AppState.ERROR ∧
    (handleGenerate st params kc newId videoRes speechRes).lastVideoBlob
      = st.lastVideoBlob ∧
    (handleGenerate st params kc newId videoRes speechRes).lastVideoObject
      = st.lastVideoObject := by
  rcases hfail with ⟨e, rfl⟩ | ⟨e, rfl⟩
  · refine ⟨?_, ?_, ?_, ?_, ?_⟩ <;> simp [handleGenerate, hkc, applyFailure]
  · cases videoRes with
    | error e2 =>
      refine ⟨?_, ?_, ?_, ?_, ?_⟩ <;> simp [handleGenerate, hkc, applyFailure]
    | ok v =>
      refine ⟨?_, ?_, ?_, ?_, ?_⟩ <;> simp [handleGenerate, hkc, hsp, applyFailure]

/-- Witness for C1: with a succeeded video and failed speech on a one-segment
timeline, the timeline and pointer are untouched, the state is ERROR, and
the successful video's blob and handle are not retained. -/
theorem c1_witness :
    (handleGenerate
        { freshAppModel with timeline := [segA], currentSegmentId := some "1" }
        sampleParams .hasKey "99"
        (.ok ⟨"blob:new", ⟨"newbytes"⟩, ⟨"remote-new"⟩⟩) (.error "boom")).timeline
      = [segA] ∧
    (handleGenerate
        { freshAppModel with timeline := [segA], currentSegmentId := some "1" }
        sampleParams .hasKey "99"
        (.ok ⟨"blob:new", ⟨"newbytes"⟩, ⟨"remote-new"⟩⟩) (.error "boom")).appState
      = AppState.ERROR ∧
    (handleGenerate
        { freshAppModel with timeline := [segA], currentSegmentId := some "1" }
        sampleParams .hasKey "99"
        (.ok ⟨"blob:new", ⟨"newbytes"⟩, ⟨"remote-new"⟩⟩) (.error "boom")).lastVideoBlob
      = none := by
  have h := c1_all_or_nothing
    { freshAppModel with timeline := [segA], currentSegmentId := some "1" }
    sampleParams .hasKey "99"
    (.ok ⟨"blob:new", ⟨"newbytes"⟩, ⟨"remote-new"⟩⟩) (.error "boom")
    rfl (by decide) (Or.inr ⟨"boom", rfl⟩)
  exact ⟨h.1, h.2.2.1, h.2.2.2.1⟩

/-- Claim C4: whenever REFERENCES_TO_VIDEO is active the configuration's
model is the high-quality one, its aspect ratio landscape and its resolution
720p regardless of prior values, and those three fields are not editable
while the mode is active; whenever EXTEND_VIDEO is active the resolution is
720p. Stated as: the lock invariant holds at every mount, is preserved by
every form event (initial-value deliveries being drafts of previously
locked configurations), and the three selects ignore edits in the locking
modes. -/
theorem c4_forced_overrides :
    (∀ iv : Option GenerateVideoParams, modeLockInvariant (mountForm iv)) ∧
    (∀ (st : FormState) (e : FormEvent),
      modeLockInvariant st → eventLockOK e → modeLockInvariant (formStep st e)) ∧
    (∀ st : FormState, st.generationMode = GenerationMode.REFERENCES_TO_VIDEO →
      (∀ v, formStep st (.setModelEv v) = st) ∧
      (∀ a, formStep st (.setAspectEv a) = st) ∧
      (∀ r, formStep st (.setResolutionEv r) = st)) ∧
    (∀ st : FormState, st.generationMode = GenerationMode.EXTEND_VIDEO →
      ∀ r, formStep st (.setResolutionEv r) = st) ∧
    (∀ st : FormState, modeLockInvariant st → configLockInvariant (handleSubmit st)) := by
  refine ⟨?_, ?_, ?_, ?_, ?_⟩
  · intro iv
    cases iv <;> exact modeConstraintEffect_lock _
  · intro st e hst he
    cases e with
    | selectMode m =>
      simp only [formStep, handleSelectMode]
      split
      · obtain ⟨h1, h2⟩ := hst
        exact ⟨fun hm => h1 (by simp_all), fun hm => h2 (by simp_all)⟩
      · exact modeConstraintEffect_lock _
    | applyInitEv iv =>
      simp only [formStep, applyInitialValues]
      split
      · obtain ⟨h1, h2⟩ := he
        exact ⟨fun hm => h1 (by simp_all [setFieldsFromInitialValues]),
               fun hm => h2 (by simp_all [setFieldsFromInitialValues])⟩
      · exact modeConstraintEffect_lock _
    | setModelEv v =>
      simp only [formStep]
      split
      · exact hst
      · obtain ⟨h1, h2⟩ := hst
        exact ⟨fun hm => by simp_all, fun hm => h2 hm⟩
    | setAspectEv v =>
      simp only [formStep]
      split
      · exact hst
      · obtain ⟨h1, h2⟩ := hst
        exact ⟨fun hm => by simp_all, fun hm => h2 hm⟩
    | setResolutionEv v =>
      simp only [formStep]
      split
      · exact hst
      · obtain ⟨h1, h2⟩ := hst
        rename_i hguard
        exact ⟨fun hm => absurd (Or.inr hm) hguard, fun hm => absurd (Or.inl hm) hguard⟩
    | setPromptEv s => exact hst
    | setDialogueEv s => exact hst
    | setSpeakerEv v => exact hst
    | toggleDialogueEv => exact hst
    | setStartFrameEv i => exact hst
    | removeStartFrameEv => exact hst
    | setEndFrameEv i => exact hst
    | removeEndFrameEv => exact hst
    | addReferenceImageEv i => exact hst
    | removeReferenceImageEv idx => exact hst
    | setStyleImageEv i => exact hst
    | setInputVideoEv v => exact hst
    | removeInputVideoEv => exact hst
    | setLoopingEv b => exact hst
  · intro st h
    refine ⟨fun v => ?_, fun a => ?_, fun r => ?_⟩ <;> simp [formStep, h]
  · intro st h r
    simp [formStep, h]
  · intro st hst
    obtain ⟨h1, h2⟩ := hst
    exact ⟨fun hm => h1 hm, fun hm => h2 hm⟩

/-- Witness for C4: after mounting with a draft that asks for
REFERENCES_TO_VIDEO at 1080p portrait on the fast model, the lock holds;
stepping a locked state with a resolution edit keeps it; and the resolution
select ignores the edit outright. -/
theorem c4_witness :
    modeLockInvariant (mountForm (some { sampleParams with
      mode := .REFERENCES_TO_VIDEO, resolution := .P1080,
      aspect := .PORTRAIT, model := .VEO_FAST })) ∧
    modeLockInvariant (formStep { sampleFormState with
        generationMode := .REFERENCES_TO_VIDEO, model := .VEO,
        aspect := .LANDSCAPE, resolution := .P720 }
      (.setResolutionEv .P4K)) :=
  ⟨c4_forced_overrides.1 (some { sampleParams with
      mode := .REFERENCES_TO_VIDEO, resolution := .P1080,
      aspect := .PORTRAIT, model := .VEO_FAST }),
   c4_forced_overrides.2.1 { sampleFormState with
        generationMode := .REFERENCES_TO_VIDEO, model := .VEO,
        aspect := .LANDSCAPE, resolution := .P720 }
      (.setResolutionEv .P4K) (by decide) trivial⟩

/-- Claim C7: starting story playback — offered exactly when at least two
segments exist — resets the index to 0 and enters PlayingStory showing the
segment at index 0; each scene-ended signal advances the index by one while
below the last index, showing the segment at the new index; the ended
signal at the last index exits PlayingStory, resets the index, and reverts
the view to the most recently generated segment rather than index 0. -/
theorem c7_playback_sequencing :
    (∀ t : List StorySegment, storyButtonShown t = true ↔ 2 ≤ t.length) ∧
    (∀ (t : List StorySegment) (cs : StorySegment) (st : PlaybackState)
       (_hns : st.isPlayingStory = false) (hlen : 0 < t.length),
      togglePlayStory t cs st
        = { isPlayingStory := true, storyIndex := 0,
            viewingSegment := t.get ⟨0, hlen⟩ }) ∧
    (∀ (t : List StorySegment) (cs : StorySegment) (st : PlaybackState)
       (_hp : st.isPlayingStory = true) (hlt : st.storyIndex + 1 < t.length),
      handleVideoEnded t cs st
        = { isPlayingStory := true, storyIndex := st.storyIndex + 1,
            viewingSegment := t.get ⟨st.storyIndex + 1, hlt⟩ }) ∧
    (∀ (t : List StorySegment) (cs : StorySegment) (st : PlaybackState),
      st.isPlayingStory = true → t.length - 1 ≤ st.storyIndex →
      handleVideoEnded t cs st
        = { isPlayingStory := false, storyIndex := 0, viewingSegment := cs }) := by
  refine ⟨?_, ?_, ?_, ?_⟩
  · intro t
    simp only [storyButtonShown, gt_iff_lt, decide_eq_true_eq]
    omega
  · intro t cs st hns hlen
    simp [togglePlayStory, hns, syncViewing, hlen]
  · intro t cs st hp hlt
    have hidx : st.storyIndex < t.length - 1 := by omega
    simp [handleVideoEnded, hp, hidx, syncViewing, hlt]
  · intro t cs st hp hge
    have hidx : ¬ st.storyIndex < t.length - 1 := by omega
    simp [handleVideoEnded, hp, hidx]

/-- Witness for C7: on the sample 3-segment timeline whose most recent
segment is the third, playback starts at index 0 and three ended signals
view indices 1 and 2 and then exit playback showing the most recent
segment. -/
theorem c7_witness :
    togglePlayStory timeline3 segC ⟨false, 0, segC⟩ = ⟨true, 0, segA⟩ ∧
    handleVideoEnded timeline3 segC ⟨true, 0, segA⟩ = ⟨true, 1, segB⟩ ∧
    handleVideoEnded timeline3 segC ⟨true, 1, segB⟩ = ⟨true, 2, segC⟩ ∧
    handleVideoEnded timeline3 segC ⟨true, 2, segC⟩ = ⟨false, 0, segC⟩ :=
  ⟨c7_playback_sequencing.2.1 timeline3 segC ⟨false, 0, segC⟩ rfl (by decide),
   c7_playback_sequencing.2.2.1 timeline3 segC ⟨true, 0, segA⟩ rfl (by decide),
   c7_playback_sequencing.2.2.1 timeline3 segC ⟨true, 1, segB⟩ rfl (by decide),
   c7_playback_sequencing.2.2.2 timeline3 segC ⟨true, 2, segC⟩ rfl (by decide)⟩

end VeoGen
